import Mathlib

/-!
Verification of `src/services/kokoro/server.py`, a Flask HTTP wrapper around
the Kokoro TTS engine.  The handler logic is embedded shallowly:

* JSON request bodies are association lists of `JVal` values (`JObj`);
  `request.get_json()` returning `None` is `Option.none`, and
  `GetJsonResult`/`handleSynthesize` additionally model the path where
  `get_json()` raises inside the try block (malformed JSON, or a non-JSON
  content type on Flask 2.1 and later), which the bare except answers 500.
* Python `float(x)` conversion is `pyFloat`; for strings it parses the
  numeric literal grammar (sign, digits, fraction, exponent).  The `inf`,
  `nan` and underscore forms of Python's grammar are not modelled - no
  claim involves them.  Error-message strings elide Python's `repr` quotes.
* NumPy's `(audio * 32767).astype(np.int16)` is `int16ofRat`: samples are
  modelled as exact rationals, the cast truncates toward zero and wraps
  modulo 2^16 (C cast semantics).
* The `wave` module's output for `nchannels=1, sampwidth=2` is
  `encodeWav`: the canonical 44-byte RIFF/WAVE header followed by
  little-endian signed 16-bit PCM.  `decodeWav` is an independent reader of
  that container, used for round-trip statements.
* The `/synthesize` handler is `synthesizeFull`, parametric in the
  inference engine `kokoro.create` (an arbitrary function returning either
  `(samples, rate)` or an exception message).  Its second component records
  the arguments of the engine call, `none` when the engine is never invoked.
-/

/-- A JSON scalar value, as it appears in a parsed request body. -/
inductive JVal where
  | jstr (s : String)
  | jnum (q : Rat)
  | jbool (b : Bool)
  | jnull
deriving DecidableEq, Repr

/-- A parsed JSON object: an association list with Python-dict lookup. -/
abbrev JObj := List (String × JVal)

/-- `d[k]` / `k in d` lookup on a parsed JSON object (first match). -/
def jGet : JObj → String → Option JVal
  | [], _ => none
  | (k', v) :: rest, k => if k' = k then some v else jGet rest k

/-- Value of a decimal-digit character. -/
def digVal (c : Char) : Nat := c.toNat - 48

/-- Natural number denoted by a list of decimal digits. -/
def digitsVal (cs : List Char) : Nat := cs.foldl (fun a c => 10 * a + digVal c) 0

/-- Split off the leading run of decimal digits. -/
def spanDigits : List Char → List Char × List Char
  | [] => ([], [])
  | c :: cs =>
    if c.isDigit then
      let p := spanDigits cs
      (c :: p.1, p.2)
    else ([], c :: cs)

/-- Consume an optional leading sign, returning the sign factor. -/
def parseSign : List Char → Int × List Char
  | '+' :: cs => (1, cs)
  | '-' :: cs => (-1, cs)
  | cs => (1, cs)

/-- Parse the optional exponent part of a Python float literal; the whole
remainder must be consumed. -/
def parseExp (cs : List Char) : Option Int :=
  match cs with
  | [] => some 0
  | 'e' :: rest | 'E' :: rest =>
    let sg := parseSign rest
    let ds := spanDigits sg.2
    if ds.1 = [] ∨ ds.2 ≠ [] then none
    else some (sg.1 * (digitsVal ds.1 : Int))
  | _ => none

/-- Parse the mantissa (integer part, optional fraction) of a Python float
literal; at least one digit is required. -/
def parseMantissa (cs : List Char) : Option (Rat × List Char) :=
  let ip := spanDigits cs
  match ip.2 with
  | '.' :: rest2 =>
    let fp := spanDigits rest2
    if ip.1 = [] ∧ fp.1 = [] then none
    else some ((digitsVal (ip.1 ++ fp.1) : Rat) / (10 : Rat) ^ fp.1.length, fp.2)
  | rest => if ip.1 = [] then none else some ((digitsVal ip.1 : Rat), rest)

/-- ASCII whitespace stripped by Python `str.strip()`. -/
def isPySpace (c : Char) : Bool :=
  c = ' ' || c = '\t' || c = '\n' || c = '\r' || c = '\x0b' || c = '\x0c'

/-- Python `s.strip()` on the character list. -/
def stripChars (cs : List Char) : List Char :=
  ((cs.dropWhile isPySpace).reverse.dropWhile isPySpace).reverse

/-- Python `float(s)` on a string: strip whitespace, optional sign,
mantissa, optional exponent. -/
def pyFloatOfString (s : String) : Option Rat :=
  let cs := stripChars s.toList
  let sg := parseSign cs
  match parseMantissa sg.2 with
  | none => none
  | some mr =>
    match parseExp mr.2 with
    | none => none
    | some e => some ((sg.1 : Rat) * mr.1 * (10 : Rat) ^ e)

/-- Python `float(x)` on a JSON value: numbers pass through, booleans map
to 0/1, strings are parsed, `None` raises `TypeError` (failure). -/
def pyFloat : JVal → Option Rat
  | .jnum q => some q
  | .jbool b => some (if b then 1 else 0)
  | .jstr s => pyFloatOfString s
  | .jnull => none

/-- Message of the exception raised by a failing `float(x)` conversion
(Python quotes around the repr are elided). -/
def floatErrMsg : JVal → String
  | .jstr s => "could not convert string to float: " ++ s
  | .jnull => "float() argument must be a string or a real number, not NoneType"
  | .jbool _ => ""
  | .jnum _ => ""

/-- Python `str(x)` of a JSON value, used in the invalid-voice message. -/
def pyStr : JVal → String
  | .jstr s => s
  | .jnum q => toString q
  | .jbool b => if b then "True" else "False"
  | .jnull => "None"

/-- Truncation toward zero of a rational (the C float-to-int cast). -/
def ratTrunc (q : Rat) : Int := if 0 ≤ q then ⌊q⌋ else ⌈q⌉

/-- Wrap an integer into the signed 16-bit range (two's-complement cast). -/
def wrap16 (n : Int) : Int := (n + 32768) % 65536 - 32768

/-- `(audio * 32767).astype(np.int16)` on one sample: scale by 32767,
truncate toward zero, wrap modulo 2^16. -/
def int16ofRat (s : Rat) : Int := wrap16 (ratTrunc (s * 32767))

/-- The conversion the spec claims: round to nearest, then saturate at the
signed 16-bit bounds.  Written from the spec for comparison with
`int16ofRat`, the conversion the source performs. -/
def roundSat16 (s : Rat) : Int := max (-32768) (min 32767 (round (s * 32767)))

/-- Little-endian bytes of a 16-bit unsigned value. -/
def u16le (n : Nat) : List Nat := [n % 256, n / 256 % 256]

/-- Little-endian bytes of a 32-bit unsigned value. -/
def u32le (n : Nat) : List Nat := [n % 256, n / 256 % 256, n / 65536 % 256, n / 16777216 % 256]

/-- ASCII bytes of a tag string such as "RIFF". -/
def asciiBytes (s : String) : List Nat := s.toList.map Char.toNat

/-- Little-endian two's-complement bytes of one int16 sample
(numpy `tobytes`). -/
def i16bytes (v : Int) : List Nat := u16le (v % 65536).toNat

/-- PCM payload of a sample list. -/
def pcmBytes (pcm : List Int) : List Nat := (pcm.map i16bytes).flatten

/-- The byte output of Python's `wave` module for `nchannels=1`,
`sampwidth=2`, `framerate=rate` and the given int16 frames: the canonical
44-byte RIFF/WAVE/fmt/data header followed by the PCM payload. -/
def encodeWav (pcm : List Int) (rate : Nat) : List Nat :=
  asciiBytes "RIFF" ++ u32le (36 + 2 * pcm.length) ++ asciiBytes "WAVE"
  ++ asciiBytes "fmt " ++ u32le 16 ++ u16le 1 ++ u16le 1
  ++ u32le rate ++ u32le (2 * rate) ++ u16le 2 ++ u16le 16
  ++ asciiBytes "data" ++ u32le (2 * pcm.length)
  ++ pcmBytes pcm

/-- Expect a fixed byte sequence as prefix, returning the remainder. -/
def expectBytes : List Nat → List Nat → Option (List Nat)
  | [], bs => some bs
  | p :: ps, b :: bs => if p = b then expectBytes ps bs else none
  | _ :: _, [] => none

/-- Read one little-endian 16-bit value. -/
def readU16 : List Nat → Option (Nat × List Nat)
  | a :: b :: rest => some (a + 256 * b, rest)
  | _ => none

/-- Read one little-endian 32-bit value. -/
def readU32 : List Nat → Option (Nat × List Nat)
  | a :: b :: c :: d :: rest => some (a + 256 * b + 65536 * c + 16777216 * d, rest)
  | _ => none

/-- Read `n` little-endian signed 16-bit samples, consuming the whole
remainder. -/
def readI16s : Nat → List Nat → Option (List Int)
  | 0, [] => some []
  | 0, _ :: _ => none
  | n + 1, bs =>
    match readU16 bs with
    | none => none
    | some ur =>
      match readI16s n ur.2 with
      | none => none
      | some vs =>
        some ((if ur.1 < 32768 then (ur.1 : Int) else (ur.1 : Int) - 65536) :: vs)

/-- A decoded WAV file: channel count, bits per sample, sample rate and
the PCM samples. -/
structure WavData where
  channels : Nat
  bits : Nat
  rate : Nat
  samples : List Int
deriving DecidableEq, Repr

/-- Decode a canonical PCM WAV byte sequence. -/
def decodeWav (bs : List Nat) : Option WavData :=
  match expectBytes (asciiBytes "RIFF") bs with
  | none => none
  | some bs => match readU32 bs with
  | none => none
  | some (_, bs) => match expectBytes (asciiBytes "WAVE") bs with
  | none => none
  | some bs => match expectBytes (asciiBytes "fmt ") bs with
  | none => none
  | some bs => match readU32 bs with
  | none => none
  | some (fmtLen, bs) =>
    if fmtLen ≠ 16 then none else
    match readU16 bs with
  | none => none
  | some (fmtTag, bs) =>
    if fmtTag ≠ 1 then none else
    match readU16 bs with
  | none => none
  | some (channels, bs) => match readU32 bs with
  | none => none
  | some (rate, bs) => match readU32 bs with
  | none => none
  | some (_, bs) => match readU16 bs with
  | none => none
  | some (_, bs) => match readU16 bs with
  | none => none
  | some (bits, bs) => match expectBytes (asciiBytes "data") bs with
  | none => none
  | some bs => match readU32 bs with
  | none => none
  | some (dataLen, bs) =>
    if dataLen % 2 ≠ 0 then none else
    match readI16s (dataLen / 2) bs with
  | none => none
  | some samples => some ⟨channels, bits, rate, samples⟩

/-- `DEFAULT_SPEED = 1.0` from the source. -/
def DEFAULT_SPEED : Rat := 1

/-- `DEFAULT_VOICE = 'af_bella'` from the source. -/
def DEFAULT_VOICE : String := "af_bella"

/-- `VOICE_MAP` from the source: the identity mapping on the nine fixed
voice codes, in insertion order. -/
def VOICE_MAP : List (String × String) :=
  [("af_bella", "af_bella"),
   ("af_nicole", "af_nicole"),
   ("af_sarah", "af_sarah"),
   ("af_sky", "af_sky"),
   ("am_adam", "am_adam"),
   ("am_michael", "am_michael"),
   ("bf_emma", "bf_emma"),
   ("bf_isabella", "bf_isabella"),
   ("bm", "bm")]

/-- Lookup of a key in `VOICE_MAP` (first match). -/
def voiceMapGet : List (String × String) → String → Option String
  | [], _ => none
  | (k', v) :: rest, k => if k' = k then some v else voiceMapGet rest k

/-- `voice in VOICE_MAP` / `VOICE_MAP[voice]`: only a string whose value is
one of the nine keys is a member; any other JSON value is not. -/
def voiceLookup : JVal → Option String
  | .jstr s => voiceMapGet VOICE_MAP s
  | _ => none

/-- The result of a successful `kokoro.create` call: a float sample buffer
and a sample rate. -/
structure SynthResult where
  samples : List Rat
  rate : Nat
deriving DecidableEq, Repr

/-- The inference engine `kokoro.create(text, voice=..., speed=...)`,
abstract: it either returns samples and a rate or raises an exception
carrying a message. -/
abbrev Kokoro := JVal → String → Rat → Except String SynthResult

/-- Observable outcome of one `/synthesize` request: a 400 JSON error, a
500 JSON error, or a WAV body with the `X-Audio-Duration` and
`X-Sample-Rate` header values. -/
inductive SynthOutcome where
  | clientError (msg : String)
  | serverError (msg : String)
  | ok (wav : List Nat) (duration : Rat) (sampleRate : Nat)
deriving DecidableEq, Repr

/-- HTTP status code of an outcome. -/
def statusOf : SynthOutcome → Nat
  | .clientError _ => 400
  | .serverError _ => 500
  | .ok _ _ _ => 200

/-- The `error` field of the JSON body, when the outcome is an error. -/
def errorField : SynthOutcome → Option String
  | .clientError m => some m
  | .serverError m => some m
  | .ok _ _ _ => none

/-- The body of the `POST /synthesize` handler from the point where
`request.get_json()` has produced a value, translated line by line from
`server.py`; `data` is that value (`none` when `get_json()` returned
`None`, caught by the `not data` guard).  The path where `get_json()`
itself raises is modelled by `handleSynthesize` below.  The second
component records the arguments of the `kokoro.create` call, `none` when
the engine was never invoked.

Order of operations, as in the source: the `not data or .text. not in
data` guard, then extraction of `text`, `voice` and `speed` (where
`float(...)` can raise, caught by the outer handler as a 500), then voice
validation, then the engine call, then the int16 cast, WAV encoding
(`setframerate` raises on a zero rate), and the duration header. -/
def synthesizeFull (kokoro : Kokoro) (data : Option JObj) :
    SynthOutcome × Option (JVal × String × Rat) :=
  match data with
  | none => (.clientError "Missing required field: text", none)
  | some d =>
    if d.isEmpty || (jGet d "text").isNone then
      (.clientError "Missing required field: text", none)
    else
      let text := (jGet d "text").getD .jnull
      let voice := (jGet d "voice").getD (.jstr DEFAULT_VOICE)
      let speedVal := (jGet d "speed").getD (.jnum DEFAULT_SPEED)
      match pyFloat speedVal with
      | none => (.serverError (floatErrMsg speedVal), none)
      | some speed =>
        match voiceLookup voice with
        | none => (.clientError ("Invalid voice: " ++ pyStr voice), none)
        | some mapped =>
          match kokoro text mapped speed with
          | .error msg => (.serverError msg, some (text, mapped, speed))
          | .ok res =>
            if res.rate = 0 then
              (.serverError "bad frame rate", some (text, mapped, speed))
            else
              (.ok (encodeWav (res.samples.map int16ofRat) res.rate)
                   ((res.samples.length : Rat) / (res.rate : Rat)) res.rate,
               some (text, mapped, speed))

/-- Outcome of one `/synthesize` request. -/
def synthesize (kokoro : Kokoro) (data : Option JObj) : SynthOutcome :=
  (synthesizeFull kokoro data).1

/-- Arguments the engine was called with, `none` when it was never
invoked. -/
def engineCall (kokoro : Kokoro) (data : Option JObj) :
    Option (JVal × String × Rat) :=
  (synthesizeFull kokoro data).2

/-- Outcome of `request.get_json()` on line 60, which runs inside the try
block: it returns a parsed JSON object, returns `None` (a JSON null body,
or a non-JSON content type on Flask versions before 2.1), or raises
(malformed JSON; on Flask 2.1 and later also a non-JSON content type,
as UnsupportedMediaType) - the raised exception carries a message and is
caught by the bare `except Exception` on line 108.  Non-object JSON
documents such as arrays are out of scope; no claim involves them. -/
inductive GetJsonResult where
  | parsed (d : JObj)
  | noObject
  | raised (msg : String)
deriving DecidableEq, Repr

/-- The whole `POST /synthesize` handler including the `get_json()` call:
when `get_json()` raises, the bare except turns the exception into a 500
with its message; otherwise `synthesizeFull` handles the value. -/
def handleSynthesize (kokoro : Kokoro) (g : GetJsonResult) :
    SynthOutcome × Option (JVal × String × Rat) :=
  match g with
  | .raised msg => (.serverError msg, none)
  | .noObject => synthesizeFull kokoro none
  | .parsed d => synthesizeFull kokoro (some d)

/-- The `GET /voices` response: the keys of `VOICE_MAP` in order, and the
default voice.  `VOICE_MAP` and `DEFAULT_VOICE` are module-level constants
that no handler writes to, so this response is the same fixed value
whatever requests were served before. -/
def voicesResponse : List String × String := (VOICE_MAP.map Prod.fst, DEFAULT_VOICE)

/-- A synthesis engine that always raises, used as a concrete engine in
closed statements about paths that reject before or at the engine call. -/
def errKokoro : Kokoro := fun _ _ _ => .error "boom"

/-- A synthesis engine that raises an exception with an empty message. -/
def emptyMsgKokoro : Kokoro := fun _ _ _ => .error ""

/-- A request body carrying only a text field. -/
def simpleReq : JObj := [("text", .jstr "hello")]

/-- A request body with a voice outside the enumerated set and a speed
that does not convert to a float. -/
def badSpeedReq : JObj :=
  [("text", .jstr "hi"), ("voice", .jstr "not_a_voice"), ("speed", .jstr "fast")]

/-- On samples in the unit range the int16 cast is exactly truncation of
the scaled value (no wraparound), and lands inside the PCM range. -/
theorem int16ofRat_eq_trunc {s : Rat} (h1 : -1 ≤ s) (h2 : s ≤ 1) :
    int16ofRat s = ratTrunc (s * 32767) ∧
    -32767 ≤ ratTrunc (s * 32767) ∧ ratTrunc (s * 32767) ≤ 32767 := by
  have hb1 : (-32767 : Rat) ≤ s * 32767 := by nlinarith
  have hb2 : s * 32767 ≤ 32767 := by nlinarith
  have ht : (-32767 : Int) ≤ ratTrunc (s * 32767) ∧ ratTrunc (s * 32767) ≤ 32767 := by
    unfold ratTrunc
    split
    next h =>
      refine ⟨?_, ?_⟩
      · have h0 : (0 : Int) ≤ ⌊s * 32767⌋ := Int.floor_nonneg.mpr h
        omega
      · have hf := Int.floor_le_floor (α := ℚ) hb2
        simpa using hf
    next h =>
      refine ⟨?_, ?_⟩
      · have hc := Int.ceil_mono hb1
        simpa using hc
      · have hc : ⌈s * 32767⌉ ≤ ⌈(32767 : ℚ)⌉ := Int.ceil_mono hb2
        simpa using hc
  refine ⟨?_, ht.1, ht.2⟩
  unfold int16ofRat wrap16
  omega

/-- Truncation stays within one unit of the scaled sample. -/
theorem int16ofRat_close {s : Rat} (h1 : -1 ≤ s) (h2 : s ≤ 1) :
    |((int16ofRat s : Int) : Rat) / 32767 - s| ≤ 1 / 32767 := by
  obtain ⟨heq, _, _⟩ := int16ofRat_eq_trunc h1 h2
  rw [heq]
  have habs : |((ratTrunc (s * 32767) : Int) : Rat) - s * 32767| ≤ 1 := by
    unfold ratTrunc
    split
    next h =>
      have hle := Int.floor_le (s * 32767)
      have hgt := Int.sub_one_lt_floor (s * 32767)
      rw [abs_le]
      constructor <;> [linarith [hgt]; linarith [hle]]
    next h =>
      have hle := Int.le_ceil (s * 32767)
      have hlt := Int.ceil_lt_add_one (s * 32767)
      rw [abs_le]
      constructor <;> [linarith [hle]; linarith [hlt]]
  have hrw : ((ratTrunc (s * 32767) : Int) : Rat) / 32767 - s
      = (((ratTrunc (s * 32767) : Int) : Rat) - s * 32767) / 32767 := by
    ring
  rw [hrw, abs_div]
  have h327 : |(32767 : Rat)| = 32767 := by norm_num
  rw [h327]
  exact (div_le_div_iff_of_pos_right (by norm_num)).mpr habs

/-- C1 counterexample: at the sample 1/2 the code emits 16383 (truncation
of 16383.5) while round-to-nearest would give 16384. -/
theorem int16_half_ne_round_sat :
    (-1 : Rat) ≤ 1/2 ∧ (1/2 : Rat) ≤ 1 ∧
    int16ofRat (1/2) = 16383 ∧ roundSat16 (1/2) = 16384 ∧
    int16ofRat (1/2) ≠ roundSat16 (1/2) := by
  have e1 : int16ofRat (1/2) = 16383 := by
    unfold int16ofRat ratTrunc wrap16
    norm_num
  have e2 : roundSat16 (1/2) = 16384 := by
    unfold roundSat16
    rw [round_eq]
    norm_num
  refine ⟨by norm_num, by norm_num, e1, e2, ?_⟩
  rw [e1, e2]
  omega

/-- C1 (amended): each sample s in the unit range maps to
trunc(s * 32767), the truncation toward zero of the scaled value, which
always lies in [-32767, 32767] so no saturation or wraparound occurs. -/
theorem int16_conversion_truncates (s : Rat) (h1 : -1 ≤ s) (h2 : s ≤ 1) :
    int16ofRat s = ratTrunc (s * 32767) ∧
    -32767 ≤ int16ofRat s ∧ int16ofRat s ≤ 32767 := by
  obtain ⟨heq, hlo, hhi⟩ := int16ofRat_eq_trunc h1 h2
  exact ⟨heq, heq ▸ hlo, heq ▸ hhi⟩

/-- C1 witness: the amended statement evaluated at the sample 0. -/
theorem int16_conversion_truncates_witness :
    int16ofRat 0 = ratTrunc ((0 : Rat) * 32767) ∧
    -32767 ≤ int16ofRat 0 ∧ int16ofRat 0 ≤ 32767 :=
  int16_conversion_truncates 0 (by norm_num) (by norm_num)

/-- A request body with a text field never parses as an empty dict. -/
theorem isEmpty_false_of_jGet {d : JObj} {k : String} {v : JVal}
    (h : jGet d k = some v) : d.isEmpty = false := by
  cases d
  · simp [jGet] at h
  · rfl

/-- C2 counterexample: a request whose voice is outside the enumerated set
but whose speed is a non-numeric string is answered 500, not 400 - the
`float(...)` call raises before the voice check runs. -/
theorem invalid_voice_bad_speed_gives_500 :
    jGet badSpeedReq "text" = some (.jstr "hi") ∧
    voiceLookup ((jGet badSpeedReq "voice").getD (.jstr DEFAULT_VOICE)) = none ∧
    statusOf (synthesize errKokoro (some badSpeedReq)) = 500 ∧
    statusOf (synthesize errKokoro (some badSpeedReq)) ≠ 400 := by
  refine ⟨by decide, by decide, by decide, by decide⟩

/-- C2 (amended): a request with a text field, a voice outside the
enumerated set, and a speed (or its default) that does convert to a float
is answered 400 with the invalid-voice error body. -/
theorem invalid_voice_gives_400 (k : Kokoro) (d : JObj)
    (ht : (jGet d "text").isSome)
    (hs : (pyFloat ((jGet d "speed").getD (.jnum DEFAULT_SPEED))).isSome)
    (hv : voiceLookup ((jGet d "voice").getD (.jstr DEFAULT_VOICE)) = none) :
    synthesize k (some d) =
      .clientError ("Invalid voice: " ++ pyStr ((jGet d "voice").getD (.jstr DEFAULT_VOICE))) ∧
    statusOf (synthesize k (some d)) = 400 ∧
    (errorField (synthesize k (some d))).isSome := by
  obtain ⟨t, ht'⟩ := Option.isSome_iff_exists.mp ht
  obtain ⟨sp, hs'⟩ := Option.isSome_iff_exists.mp hs
  have hne := isEmpty_false_of_jGet ht'
  have hmain : synthesize k (some d) =
      .clientError ("Invalid voice: " ++ pyStr ((jGet d "voice").getD (.jstr DEFAULT_VOICE))) := by
    simp only [synthesize, synthesizeFull, hne, ht', hs', hv, Option.isNone_some,
      Bool.false_or, Bool.or_self, if_false]
    rfl
  exact ⟨hmain, by rw [hmain]; rfl, by rw [hmain]; rfl⟩

/-- C2 witness: the amended statement at a request with text, an invalid
voice, and no speed field (the default 1.0 converts). -/
theorem invalid_voice_gives_400_witness :
    synthesize errKokoro (some [("text", .jstr "x"), ("voice", .jstr "zz")]) =
      .clientError ("Invalid voice: " ++
        pyStr ((jGet [("text", .jstr "x"), ("voice", .jstr "zz")] "voice").getD
          (.jstr DEFAULT_VOICE))) ∧
    statusOf (synthesize errKokoro (some [("text", .jstr "x"), ("voice", .jstr "zz")])) = 400 ∧
    (errorField (synthesize errKokoro (some [("text", .jstr "x"), ("voice", .jstr "zz")]))).isSome :=
  invalid_voice_gives_400 errKokoro [("text", .jstr "x"), ("voice", .jstr "zz")]
    (by decide) (by decide) (by decide)

/-- C3 counterexample: an engine failure whose exception message is the
empty string yields a 500 whose error field is the empty string - the
claim that the error field is always non-empty fails there. -/
theorem adapter_empty_message_gives_empty_error :
    statusOf (synthesize emptyMsgKokoro (some simpleReq)) = 500 ∧
    errorField (synthesize emptyMsgKokoro (some simpleReq)) = some "" ∧
    ¬ (errorField (synthesize emptyMsgKokoro (some simpleReq)) ≠ some "") := by
  refine ⟨by decide, by decide, by decide⟩

/-- C3 (amended): when a validated request reaches the engine and the
engine raises with message m, the response is 500 and its error field
carries exactly m - so it is non-empty whenever the exception message is. -/
theorem adapter_failure_gives_500 (k : Kokoro) (d : JObj) (msg : String)
    (ht : (jGet d "text").isSome)
    (hs : (pyFloat ((jGet d "speed").getD (.jnum DEFAULT_SPEED))).isSome)
    (hv : (voiceLookup ((jGet d "voice").getD (.jstr DEFAULT_VOICE))).isSome)
    (hk : ∀ t v s, k t v s = .error msg) :
    synthesize k (some d) = .serverError msg ∧
    statusOf (synthesize k (some d)) = 500 ∧
    errorField (synthesize k (some d)) = some msg := by
  obtain ⟨t, ht'⟩ := Option.isSome_iff_exists.mp ht
  obtain ⟨sp, hs'⟩ := Option.isSome_iff_exists.mp hs
  obtain ⟨mv, hv'⟩ := Option.isSome_iff_exists.mp hv
  have hne := isEmpty_false_of_jGet ht'
  have hmain : synthesize k (some d) = .serverError msg := by
    simp only [synthesize, synthesizeFull, hne, ht', hs', hv', hk, Option.isNone_some,
      Bool.false_or, if_false, Option.getD_some]
    rfl
  exact ⟨hmain, by rw [hmain]; rfl, by rw [hmain]; rfl⟩

/-- C3 witness: the amended statement at a plain text-only request and an
engine that raises with the message boom. -/
theorem adapter_failure_gives_500_witness :
    synthesize errKokoro (some simpleReq) = .serverError "boom" ∧
    statusOf (synthesize errKokoro (some simpleReq)) = 500 ∧
    errorField (synthesize errKokoro (some simpleReq)) = some "boom" :=
  adapter_failure_gives_500 errKokoro simpleReq "boom"
    (by decide) (by decide) (by decide) (fun _ _ _ => rfl)

/-- C4 counterexample: a body that is not parseable JSON makes
`request.get_json()` raise inside the try block; the bare except answers
500 with the exception's message, not the claimed 400 (the engine is
still never invoked). -/
theorem unparseable_json_gives_500 :
    (handleSynthesize errKokoro (.raised "Failed to decode JSON object")).1 =
      .serverError "Failed to decode JSON object" ∧
    statusOf ((handleSynthesize errKokoro (.raised "Failed to decode JSON object")).1) = 500 ∧
    statusOf ((handleSynthesize errKokoro (.raised "Failed to decode JSON object")).1) ≠ 400 ∧
    (handleSynthesize errKokoro (.raised "Failed to decode JSON object")).2 = none := by
  refine ⟨rfl, rfl, by decide, rfl⟩

/-- C4 (amended): when `get_json()` returns no JSON object or the parsed
object lacks a text key, the response is 400 with the missing-text error
body and the engine is never invoked; when `get_json()` instead raises on
an unparseable body, the bare except answers 500 (see the
counterexample), the engine still never invoked. -/
theorem missing_text_gives_400_no_engine_call (k : Kokoro) (g : GetJsonResult)
    (h : g = .noObject ∨ ∃ d, g = .parsed d ∧ jGet d "text" = none) :
    handleSynthesize k g = (.clientError "Missing required field: text", none) ∧
    statusOf ((handleSynthesize k g).1) = 400 ∧
    errorField ((handleSynthesize k g).1) = some "Missing required field: text" ∧
    (handleSynthesize k g).2 = none := by
  have hmain : handleSynthesize k g = (.clientError "Missing required field: text", none) := by
    rcases h with h | ⟨d, hd, ht⟩
    · rw [h]; rfl
    · rw [hd]
      simp only [handleSynthesize, synthesizeFull, ht, Option.isNone_none, Bool.or_true,
        if_true]
  refine ⟨hmain, ?_, ?_, ?_⟩ <;> simp only [hmain] <;> rfl

/-- C4 witness: a parsed body with a voice but no text field is rejected
400 and the engine is not called. -/
theorem missing_text_gives_400_no_engine_call_witness :
    handleSynthesize errKokoro (.parsed [("voice", .jstr "af_bella")]) =
      (.clientError "Missing required field: text", none) ∧
    statusOf ((handleSynthesize errKokoro (.parsed [("voice", .jstr "af_bella")])).1) = 400 ∧
    errorField ((handleSynthesize errKokoro (.parsed [("voice", .jstr "af_bella")])).1) =
      some "Missing required field: text" ∧
    (handleSynthesize errKokoro (.parsed [("voice", .jstr "af_bella")])).2 = none :=
  missing_text_gives_400_no_engine_call errKokoro (.parsed [("voice", .jstr "af_bella")])
    (Or.inr ⟨[("voice", .jstr "af_bella")], rfl, by decide⟩)

/-- C5: each default independently: a request with text and no voice
field reaches the engine with the default voice af_bella (through the
identity `VOICE_MAP` lookup) whatever value its speed converts to, and a
request with text and no speed field reaches the engine with the default
speed 1.0 whatever valid voice it names. -/
theorem omitted_fields_use_defaults (k : Kokoro) (d : JObj) (t : JVal)
    (ht : jGet d "text" = some t) :
    (jGet d "voice" = none →
      ∀ sp, pyFloat ((jGet d "speed").getD (.jnum DEFAULT_SPEED)) = some sp →
        engineCall k (some d) = some (t, DEFAULT_VOICE, sp)) ∧
    (jGet d "speed" = none →
      ∀ mv, voiceLookup ((jGet d "voice").getD (.jstr DEFAULT_VOICE)) = some mv →
        engineCall k (some d) = some (t, mv, DEFAULT_SPEED)) ∧
    DEFAULT_VOICE = "af_bella" ∧ DEFAULT_SPEED = 1 := by
  have hne := isEmpty_false_of_jGet ht
  refine ⟨?_, ?_, rfl, rfl⟩
  · intro hv sp hsp
    simp only [engineCall, synthesizeFull, hne, ht, hv, hsp, Option.isNone_some,
      Bool.false_or, Option.getD_some, Option.getD_none]
    have hvl : voiceLookup (.jstr DEFAULT_VOICE) = some DEFAULT_VOICE := by decide
    simp only [hvl]
    cases hk : k t DEFAULT_VOICE sp with
    | error msg => rfl
    | ok res =>
      by_cases hr : res.rate = 0
      · simp only [hr, if_true]
        rfl
      · simp only [hr, if_false]
        rfl
  · intro hs mv hmv
    have hpf : pyFloat (.jnum DEFAULT_SPEED) = some DEFAULT_SPEED := rfl
    simp only [engineCall, synthesizeFull, hne, ht, hs, Option.isNone_some,
      Bool.false_or, Option.getD_some, Option.getD_none, hpf, hmv]
    cases hk : k t mv DEFAULT_SPEED with
    | error msg => rfl
    | ok res =>
      by_cases hr : res.rate = 0
      · simp only [hr, if_true]
        rfl
      · simp only [hr, if_false]
        rfl

/-- C5 witness: a request omitting only the voice (speed 2 supplied)
calls the engine with voice af_bella and speed 2; a request omitting only
the speed (voice bm supplied) calls the engine with voice bm and
speed 1. -/
theorem omitted_fields_use_defaults_witness :
    engineCall errKokoro (some [("text", .jstr "hi"), ("speed", .jnum 2)]) =
      some (.jstr "hi", DEFAULT_VOICE, 2) ∧
    engineCall errKokoro (some [("text", .jstr "hi"), ("voice", .jstr "bm")]) =
      some (.jstr "hi", "bm", DEFAULT_SPEED) :=
  ⟨(omitted_fields_use_defaults errKokoro [("text", .jstr "hi"), ("speed", .jnum 2)]
      (.jstr "hi") (by decide)).1 (by decide) 2 (by decide),
   (omitted_fields_use_defaults errKokoro [("text", .jstr "hi"), ("voice", .jstr "bm")]
      (.jstr "hi") (by decide)).2.1 (by decide) "bm" (by decide)⟩

/-- C9: a request with text whose speed value does not convert to a float
is answered 500 (the ValueError from `float(...)` is caught by the generic
handler), never 400, and the engine is not invoked - with no hypothesis on
the voice field, so this holds in particular when the voice is also
outside the enumerated set, because the conversion runs before the voice
check. -/
theorem bad_speed_gives_500_before_voice_check (k : Kokoro) (d : JObj)
    (ht : (jGet d "text").isSome)
    (hs : pyFloat ((jGet d "speed").getD (.jnum DEFAULT_SPEED)) = none) :
    synthesize k (some d) =
      .serverError (floatErrMsg ((jGet d "speed").getD (.jnum DEFAULT_SPEED))) ∧
    statusOf (synthesize k (some d)) = 500 ∧
    statusOf (synthesize k (some d)) ≠ 400 ∧
    engineCall k (some d) = none := by
  obtain ⟨t, ht'⟩ := Option.isSome_iff_exists.mp ht
  have hne := isEmpty_false_of_jGet ht'
  have hmain : synthesizeFull k (some d) =
      (.serverError (floatErrMsg ((jGet d "speed").getD (.jnum DEFAULT_SPEED))), none) := by
    simp only [synthesizeFull, hne, ht', hs, Option.isNone_some, Bool.false_or, if_false]
    rfl
  refine ⟨?_, ?_, ?_, ?_⟩
  · simp only [synthesize, hmain]
  · simp only [synthesize, hmain]
    rfl
  · simp only [synthesize, hmain, statusOf]
    omega
  · simp only [engineCall, hmain]

/-- C9 witness: the statement at a request whose speed is the non-numeric
string fast and whose voice is also invalid - the answer is still 500. -/
theorem bad_speed_gives_500_before_voice_check_witness :
    synthesize errKokoro (some badSpeedReq) =
      .serverError (floatErrMsg ((jGet badSpeedReq "speed").getD (.jnum DEFAULT_SPEED))) ∧
    statusOf (synthesize errKokoro (some badSpeedReq)) = 500 ∧
    statusOf (synthesize errKokoro (some badSpeedReq)) ≠ 400 ∧
    engineCall errKokoro (some badSpeedReq) = none :=
  bad_speed_gives_500_before_voice_check errKokoro badSpeedReq (by decide) (by decide)

/-- The invalid-voice error body never coincides with the missing-text
error body. -/
theorem invalidVoiceMsg_ne_missingText (x : String) :
    "Invalid voice: " ++ x ≠ "Missing required field: text" := by
  intro h
  have h2 : ("Invalid voice: " ++ x).data.head? = some 'I' := rfl
  rw [h] at h2
  simp at h2

/-- C10: a body whose text key holds the empty string passes the presence
check - the response is never the missing-text 400 - and when the other
fields take their defaults the empty string itself reaches the engine. -/
theorem empty_text_not_rejected (k : Kokoro) (d : JObj)
    (ht : jGet d "text" = some (.jstr "")) :
    synthesize k (some d) ≠ .clientError "Missing required field: text" ∧
    (jGet d "voice" = none → jGet d "speed" = none →
      engineCall k (some d) = some (.jstr "", DEFAULT_VOICE, DEFAULT_SPEED)) := by
  have hne := isEmpty_false_of_jGet ht
  constructor
  · simp only [synthesize, synthesizeFull, hne, ht, Option.isNone_some, Bool.false_or,
      if_false, Option.getD_some]
    cases hpf : pyFloat ((jGet d "speed").getD (.jnum DEFAULT_SPEED)) with
    | none => simp [hpf]
    | some sp =>
      cases hvl : voiceLookup ((jGet d "voice").getD (.jstr DEFAULT_VOICE)) with
      | none =>
        simp only [hpf, hvl]
        intro hcontra
        simp at hcontra
        exact invalidVoiceMsg_ne_missingText _ hcontra
      | some mv =>
        cases hk : k (.jstr "") mv sp with
        | error m => simp [hpf, hvl, hk]
        | ok res =>
          by_cases hr : res.rate = 0
          · simp [hpf, hvl, hk, hr]
          · simp [hpf, hvl, hk, hr]
  · intro hv hs
    simp only [engineCall, synthesizeFull, hne, ht, hv, hs, Option.isNone_some,
      Bool.false_or, Option.getD_some, Option.getD_none]
    have hvl : voiceLookup (.jstr DEFAULT_VOICE) = some DEFAULT_VOICE := by decide
    have hpf : pyFloat (.jnum DEFAULT_SPEED) = some DEFAULT_SPEED := rfl
    simp only [hvl, hpf]
    cases hk : k (.jstr "") DEFAULT_VOICE DEFAULT_SPEED with
    | error msg => rfl
    | ok res =>
      by_cases hr : res.rate = 0
      · simp only [hr, if_true]
        rfl
      · simp only [hr, if_false]
        rfl

/-- C10 witness: a request whose text is the empty string and nothing
else: not the missing-text rejection, and the engine receives the empty
string with the default voice and speed. -/
theorem empty_text_not_rejected_witness :
    synthesize errKokoro (some [("text", .jstr "")]) ≠
      .clientError "Missing required field: text" ∧
    (jGet [("text", .jstr "")] "voice" = none → jGet [("text", .jstr "")] "speed" = none →
      engineCall errKokoro (some [("text", .jstr "")]) =
        some (.jstr "", DEFAULT_VOICE, DEFAULT_SPEED)) :=
  empty_text_not_rejected errKokoro [("text", .jstr "")] (by decide)

/-- C8: the voices endpoint answers exactly the nine fixed identifiers in
insertion order with default af_bella.  `voicesResponse` is a closed
constant built from `VOICE_MAP` and `DEFAULT_VOICE`, which no handler
mutates (the embedding of every handler is a pure function reading them),
so the answer is the same after any sequence of synthesize calls. -/
theorem voices_fixed_nine :
    voicesResponse = (["af_bella", "af_nicole", "af_sarah", "af_sky", "am_adam",
      "am_michael", "bf_emma", "bf_isabella", "bm"], "af_bella") ∧
    voicesResponse.1.length = 9 ∧
    voicesResponse.2 = DEFAULT_VOICE := by
  refine ⟨by decide, by decide, rfl⟩

/-- C7: when a validated request reaches an engine returning the buffer
samples at the given nonzero rate, the response is the WAV encoding with
the X-Audio-Duration header equal to sample count divided by sample rate
and the X-Sample-Rate header equal to the rate. -/
theorem duration_header_eq (k : Kokoro) (d : JObj) (samples : List Rat) (rate : Nat)
    (ht : (jGet d "text").isSome)
    (hs : (pyFloat ((jGet d "speed").getD (.jnum DEFAULT_SPEED))).isSome)
    (hv : (voiceLookup ((jGet d "voice").getD (.jstr DEFAULT_VOICE))).isSome)
    (hk : ∀ t v s, k t v s = Except.ok ⟨samples, rate⟩)
    (hr : rate ≠ 0) :
    synthesize k (some d) =
      .ok (encodeWav (samples.map int16ofRat) rate)
        ((samples.length : Rat) / (rate : Rat)) rate := by
  obtain ⟨t, ht'⟩ := Option.isSome_iff_exists.mp ht
  obtain ⟨sp, hs'⟩ := Option.isSome_iff_exists.mp hs
  obtain ⟨mv, hv'⟩ := Option.isSome_iff_exists.mp hv
  have hne := isEmpty_false_of_jGet ht'
  simp only [synthesize, synthesizeFull, hne, ht', hs', hv', hk, Option.isNone_some,
    Bool.false_or, if_false, Option.getD_some]
  rw [if_neg hr]
  rfl

/-- C7 witness: a three-sample buffer at rate 24000 yields the duration
value 3 / 24000. -/
theorem duration_header_eq_witness :
    synthesize (fun _ _ _ => Except.ok ⟨[0, 1, -1], 24000⟩) (some simpleReq) =
      .ok (encodeWav (([0, 1, -1] : List Rat).map int16ofRat) 24000)
        ((([0, 1, -1] : List Rat).length : Rat) / ((24000 : Nat) : Rat)) 24000 :=
  duration_header_eq (fun _ _ _ => Except.ok ⟨[0, 1, -1], 24000⟩) simpleReq [0, 1, -1] 24000
    (by decide) (by decide) (by decide) (fun _ _ _ => rfl) (by decide)

/-- A fixed byte pattern at the front of a stream is consumed exactly. -/
theorem expectBytes_append (ps rest : List Nat) : expectBytes ps (ps ++ rest) = some rest := by
  induction ps with
  | nil => rfl
  | cons p ps ih => simp [expectBytes, ih]

/-- Reading back a 16-bit little-endian field recovers the value. -/
theorem readU16_u16le {n : Nat} {rest : List Nat} (h : n < 65536) :
    readU16 (u16le n ++ rest) = some (n, rest) := by
  simp only [u16le, List.cons_append, List.nil_append, readU16, Option.some.injEq,
    Prod.mk.injEq]
  exact ⟨by omega, trivial⟩

/-- Reading back a 32-bit little-endian field recovers the value. -/
theorem readU32_u32le {n : Nat} {rest : List Nat} (h : n < 4294967296) :
    readU32 (u32le n ++ rest) = some (n, rest) := by
  simp only [u32le, List.cons_append, List.nil_append, readU32, Option.some.injEq,
    Prod.mk.injEq]
  exact ⟨by omega, trivial⟩

/-- Reading a 32-bit field always succeeds and consumes four bytes,
whatever the stored value (used for the byte-rate field, which the
decoder discards). -/
theorem readU32_u32le_raw (n : Nat) (rest : List Nat) :
    readU32 (u32le n ++ rest) =
      some (n % 256 + 256 * (n / 256 % 256) + 65536 * (n / 65536 % 256)
        + 16777216 * (n / 16777216 % 256), rest) := rfl

/-- Reading back the PCM payload recovers every int16 sample. -/
theorem readI16s_pcmBytes (pcm : List Int)
    (h : ∀ v ∈ pcm, -32768 ≤ v ∧ v ≤ 32767) :
    readI16s pcm.length (pcmBytes pcm) = some pcm := by
  induction pcm with
  | nil => rfl
  | cons v vs ih =>
    have hv := h v (List.mem_cons_self v vs)
    have hrest : ∀ w ∈ vs, -32768 ≤ w ∧ w ≤ 32767 :=
      fun w hw => h w (List.mem_cons_of_mem _ hw)
    have hlt : (v % 65536).toNat < 65536 := by omega
    simp only [pcmBytes, List.map_cons, List.flatten_cons, List.length_cons] at *
    simp only [readI16s, i16bytes, readU16_u16le hlt, ih hrest]
    simp only [Option.some.injEq, List.cons.injEq, and_true]
    split <;> omega

/-- Decoding the encoder's output recovers a mono 16-bit stream at the
original rate with exactly the original samples. -/
theorem decodeWav_encodeWav (pcm : List Int) (rate : Nat)
    (hpcm : ∀ v ∈ pcm, -32768 ≤ v ∧ v ≤ 32767)
    (hlen : 36 + 2 * pcm.length < 4294967296)
    (hrate : rate < 4294967296) :
    decodeWav (encodeWav pcm rate) = some ⟨1, 16, rate, pcm⟩ := by
  have h16 : (16 : Nat) < 4294967296 := by omega
  have hdl : 2 * pcm.length < 4294967296 := by omega
  have h1 : (1 : Nat) < 65536 := by omega
  have h2 : (2 : Nat) < 65536 := by omega
  have h16b : (16 : Nat) < 65536 := by omega
  simp only [decodeWav, encodeWav, List.append_assoc, expectBytes_append,
    readU32_u32le hlen, readU32_u32le h16, readU32_u32le hrate, readU32_u32le hdl,
    readU32_u32le_raw, readU16_u16le h1, readU16_u16le h2, readU16_u16le h16b,
    Option.some_bind, ne_eq, if_neg (show ¬¬(16 : Nat) = 16 from by omega),
    if_neg (show ¬¬(1 : Nat) = 1 from by omega),
    if_neg (show ¬(2 * pcm.length % 2 ≠ 0) from by omega),
    Nat.mul_div_cancel_left pcm.length (show 0 < 2 from by omega),
    readI16s_pcmBytes pcm hpcm]
  simp

/-- Samples in the unit range land in the representable int16 window
after conversion. -/
theorem int16ofRat_mem_range (samples : List Rat)
    (hs : ∀ s ∈ samples, -1 ≤ s ∧ s ≤ 1) :
    ∀ v ∈ samples.map int16ofRat, -32768 ≤ v ∧ v ≤ 32767 := by
  intro v hv
  obtain ⟨s, hsmem, rfl⟩ := List.mem_map.mp hv
  obtain ⟨heq, hlo, hhi⟩ := int16ofRat_eq_trunc (hs s hsmem).1 (hs s hsmem).2
  rw [heq]
  exact ⟨by omega, hhi⟩

/-- C6: encoding a unit-range float sample sequence at a representable
rate and decoding the WAV bytes recovers a mono (1-channel), 16-bit
stream at the same rate, with exactly one PCM sample per input sample,
and each decoded sample scaled back by 1/32767 lies within one
quantization step (1/32767) of its input. -/
theorem wav_roundtrip (samples : List Rat) (rate : Nat)
    (hs : ∀ s ∈ samples, -1 ≤ s ∧ s ≤ 1)
    (hlen : 36 + 2 * samples.length < 4294967296)
    (hrate : rate < 4294967296) :
    decodeWav (encodeWav (samples.map int16ofRat) rate) =
      some ⟨1, 16, rate, samples.map int16ofRat⟩ ∧
    (samples.map int16ofRat).length = samples.length ∧
    ∀ i, i < samples.length →
      |(((samples.map int16ofRat).getD i 0 : Int) : Rat) / 32767 - samples.getD i 0| ≤ 1 / 32767 := by
  have hlen2 : 36 + 2 * (samples.map int16ofRat).length < 4294967296 := by
    rw [List.length_map]
    exact hlen
  refine ⟨decodeWav_encodeWav _ rate (int16ofRat_mem_range samples hs) hlen2 hrate,
    List.length_map _ _, ?_⟩
  intro i hi
  have hi2 : i < (samples.map int16ofRat).length := by
    rw [List.length_map]
    exact hi
  rw [List.getD_eq_getElem _ _ hi2, List.getD_eq_getElem _ _ hi, List.getElem_map]
  exact int16ofRat_close (hs _ (List.getElem_mem hi)).1 (hs _ (List.getElem_mem hi)).2

/-- C6 witness: the statement at the buffer [0, 1, -1] and rate 24000. -/
theorem wav_roundtrip_witness :
    decodeWav (encodeWav (([0, 1, -1] : List Rat).map int16ofRat) 24000) =
      some ⟨1, 16, 24000, ([0, 1, -1] : List Rat).map int16ofRat⟩ ∧
    (([0, 1, -1] : List Rat).map int16ofRat).length = ([0, 1, -1] : List Rat).length ∧
    ∀ i, i < ([0, 1, -1] : List Rat).length →
      |(((([0, 1, -1] : List Rat).map int16ofRat).getD i 0 : Int) : Rat) / 32767 -
        ([0, 1, -1] : List Rat).getD i 0| ≤ 1 / 32767 :=
  wav_roundtrip [0, 1, -1] 24000 (by simp) (by decide) (by decide)
